import Mathlib

/-!
Verification of the ontology design-pattern validator
(`src/semantico/pattern_validator.py`).

The Python module checks a parsed conceptual model (classes with
stereotypes, generalization sets, relations) against six ontology
design patterns and classifies each detected pattern instance as
complete or incomplete.  This file gives a shallow embedding of the
module: the dict-shaped records become structures, each checker
method becomes a pure function, and the mutable accumulator fields
of the `PatternValidator` object become explicit state passing.
-/

/-- A nested member of a container class's `body`.  In the source these are
loosely shaped dicts accessed via `member.get('stereotype')`; a missing key
is `none`. -/
structure Member where
  stereotype : Option String
deriving DecidableEq, Repr

/-- A relation from the top-level `relations` container, accessed via
`r.get('internal')` and `r.get('stereotype')`. -/
structure Relation where
  stereotype : Option String
  internal : Bool
deriving DecidableEq, Repr

/-- A modeled class.  `name`, `stereotype` and `line` are mandatory keys in
the source; `parents` defaults to the empty list (`c.get('parents', [])`)
and `body` to the empty list (an absent or empty `body` behaves the same in
every loop of the source). -/
structure ModelClass where
  name : String
  stereotype : String
  parents : List String
  body : List Member
  line : Nat
deriving DecidableEq, Repr

/-- A generalization-set declaration.  `general`, `specifics`, `modifiers`
are read with `.get` in the source (missing keys give `none` / `[]`);
`name` is a mandatory key. -/
structure Genset where
  name : String
  general : Option String
  specifics : List String
  modifiers : List String
deriving DecidableEq, Repr

/-- One entry of `complete_patterns` / `incomplete_patterns`.  The Python
dicts carry different keys per pattern type; here a single record holds
every key that any pattern writes, with neutral defaults for the keys a
given pattern leaves absent (the formatting code never reads an absent
key). -/
structure PatternData where
  type : String
  line : Nat
  kind : String := ""
  subkinds : List String := []
  roles : List String := []
  phases : List String := []
  relator : String := ""
  mode : String := ""
  rolemixin : String := ""
  genset : String := ""
  mediations : Nat := 0
  error : String := ""
  suggestion : String := ""
deriving DecidableEq, Repr

/-- A verdict appended by a checker: either to `complete_patterns` or to
`incomplete_patterns`. -/
inductive Verdict where
  | complete (p : PatternData)
  | incomplete (p : PatternData)
deriving DecidableEq, Repr

/-- The `PatternValidator` object state: the three input containers plus
the two accumulator fields. -/
structure Validator where
  classes : List ModelClass
  gensets : List Genset
  relations : List Relation
  complete_patterns : List PatternData
  incomplete_patterns : List PatternData
deriving DecidableEq, Repr

/-- The single qualification test of `_find_genset_for_classes`, i.e. the
conjunction of the four `continue` guards of its loop body. -/
def gensetQualifiesB (g : Genset) (general_class : String)
    (specific_classes required_modifiers forbidden_modifiers : List String) : Bool :=
  g.general == some general_class &&
  specific_classes.all (fun s => g.specifics.contains s) &&
  required_modifiers.all (fun m => g.modifiers.contains m) &&
  !(forbidden_modifiers.any (fun m => g.modifiers.contains m))

/-- `_find_genset_for_classes`: scan `gensets` in order and return the first
genset passing all four guards, or `none`. -/
def findGensetForClasses (gensets : List Genset) (general_class : String)
    (specific_classes : List String)
    (required_modifiers forbidden_modifiers : List String) : Option Genset :=
  gensets.find? (fun g =>
    gensetQualifiesB g general_class specific_classes required_modifiers forbidden_modifiers)

/-- The matcher's qualification criterion as the specification words it:
the general matches, the specifics are a superset of the query, the
modifiers are a superset of the required ones and miss all forbidden
ones. -/
def GensetQualifies (g : Genset) (generalClass : String)
    (specificClasses required forbidden : List String) : Prop :=
  g.general = some generalClass ∧
  (∀ s ∈ specificClasses, s ∈ g.specifics) ∧
  (∀ m ∈ required, m ∈ g.modifiers) ∧
  (∀ m ∈ forbidden, m ∉ g.modifiers)

instance (g : Genset) (gc : String) (sc req forb : List String) :
    Decidable (GensetQualifies g gc sc req forb) := by
  unfold GensetQualifies
  infer_instance

theorem gensetQualifiesB_iff (g : Genset) (gc : String) (sc req forb : List String) :
    gensetQualifiesB g gc sc req forb = true ↔ GensetQualifies g gc sc req forb := by
  simp only [gensetQualifiesB, GensetQualifies, Bool.and_eq_true, Bool.not_eq_true',
    List.all_eq_true, List.any_eq_false, List.contains, List.elem_eq_mem, beq_iff_eq,
    decide_eq_true_eq, decide_eq_false_iff_not]
  tauto

/-- C2: `_find_genset_for_classes` returns a genset iff it is the first
qualifying genset in declaration order, and `None` iff no genset
qualifies. -/
theorem findGenset_first_qualifying (gensets : List Genset) (gc : String)
    (sc req forb : List String) :
    (∀ G : Genset, findGensetForClasses gensets gc sc req forb = some G ↔
      (GensetQualifies G gc sc req forb ∧
        ∃ pre post, gensets = pre ++ G :: post ∧
          ∀ H ∈ pre, ¬ GensetQualifies H gc sc req forb)) ∧
    (findGensetForClasses gensets gc sc req forb = none ↔
      ∀ G ∈ gensets, ¬ GensetQualifies G gc sc req forb) := by
  constructor
  · intro G
    rw [findGensetForClasses, List.find?_eq_some]
    constructor
    · rintro ⟨hq, pre, post, rfl, hpre⟩
      refine ⟨(gensetQualifiesB_iff G gc sc req forb).mp hq, pre, post, rfl, ?_⟩
      intro H hH hQ
      have := hpre H hH
      rw [(gensetQualifiesB_iff H gc sc req forb).mpr hQ] at this
      simp at this
    · rintro ⟨hq, pre, post, rfl, hpre⟩
      refine ⟨(gensetQualifiesB_iff G gc sc req forb).mpr hq, pre, post, rfl, ?_⟩
      intro H hH
      have := hpre H hH
      rw [← gensetQualifiesB_iff H gc sc req forb] at this
      simp only [Bool.not_eq_true] at this ⊢
      simp [this]
  · rw [findGensetForClasses, List.find?_eq_none]
    constructor
    · intro h G hG hQ
      exact h G hG ((gensetQualifiesB_iff G gc sc req forb).mpr hQ)
    · intro h G hG hB
      exact h G hG ((gensetQualifiesB_iff G gc sc req forb).mp hB)

/-- The list comprehension shared by the Subkind/Role/Phase/RoleMixin
checkers: every class with the given stereotype whose `parents` contain
the given name. -/
def specializersOf (classes : List ModelClass) (stereo parentName : String) : List ModelClass :=
  classes.filter (fun c => c.stereotype == stereo && c.parents.contains parentName)

/-- Body of the `_validate_subkind_pattern` loop for one kind. -/
def subkindVerdictFor (classes : List ModelClass) (gensets : List Genset)
    (kind : ModelClass) : Option Verdict :=
  let kind_name := kind.name
  let subkinds := specializersOf classes "subkind" kind_name
  if subkinds.length < 2 then none
  else
    match findGensetForClasses gensets kind_name (subkinds.map ModelClass.name)
        ["disjoint", "complete"] [] with
    | some genset_found =>
        some (Verdict.complete
          { type := "Subkind Pattern", line := kind.line,
            kind := kind_name, subkinds := subkinds.map ModelClass.name,
            genset := genset_found.name })
    | none =>
        some (Verdict.incomplete
          { type := "Subkind Pattern", line := kind.line,
            kind := kind_name, subkinds := subkinds.map ModelClass.name,
            error := "Falta genset disjoint complete",
            suggestion := "Adicione: disjoint complete genset " ++ kind_name ++
              "_Genset \x7b general " ++ kind_name ++ " specifics " ++
              String.intercalate ", " (subkinds.map ModelClass.name) ++ " \x7d" })

/-- Body of the `_validate_role_pattern` loop for one kind. -/
def roleVerdictFor (classes : List ModelClass) (gensets : List Genset)
    (kind : ModelClass) : Option Verdict :=
  let kind_name := kind.name
  let roles := specializersOf classes "role" kind_name
  if roles.length < 2 then none
  else
    match findGensetForClasses gensets kind_name (roles.map ModelClass.name)
        ["complete"] ["disjoint"] with
    | some genset_found =>
        some (Verdict.complete
          { type := "Role Pattern", line := kind.line,
            kind := kind_name, roles := roles.map ModelClass.name,
            genset := genset_found.name })
    | none =>
        some (Verdict.incomplete
          { type := "Role Pattern", line := kind.line,
            kind := kind_name, roles := roles.map ModelClass.name,
            error := "Falta genset complete (sem disjoint)",
            suggestion := "Adicione: complete genset " ++ kind_name ++
              "_Role_Genset \x7b general " ++ kind_name ++ " specifics " ++
              String.intercalate ", " (roles.map ModelClass.name) ++ " \x7d" })

/-- Body of the `_validate_phase_pattern` loop for one kind. -/
def phaseVerdictFor (classes : List ModelClass) (gensets : List Genset)
    (kind : ModelClass) : Option Verdict :=
  let kind_name := kind.name
  let phases := specializersOf classes "phase" kind_name
  if phases.length < 2 then none
  else
    match findGensetForClasses gensets kind_name (phases.map ModelClass.name)
        ["disjoint"] [] with
    | some genset_found =>
        some (Verdict.complete
          { type := "Phase Pattern", line := kind.line,
            kind := kind_name, phases := phases.map ModelClass.name,
            genset := genset_found.name })
    | none =>
        some (Verdict.incomplete
          { type := "Phase Pattern", line := kind.line,
            kind := kind_name, phases := phases.map ModelClass.name,
            error := "Falta genset disjoint (obrigatório para phases)",
            suggestion := "Adicione: disjoint complete genset " ++ kind_name ++
              "_Phase_Genset \x7b general " ++ kind_name ++ " specifics " ++
              String.intercalate ", " (phases.map ModelClass.name) ++ " \x7d" })

/-- The `relator_mediations` list built by `_validate_relator_pattern` for
one relator: for every top-level relation with `internal` set and
stereotype `mediation`, the loop appends every `body` member of the
relator whose stereotype is `mediation` (the loop variable `med` is never
used inside the inner loop). -/
def relatorMediations (relations : List Relation) (relator : ModelClass) : List Member :=
  (relations.filter (fun r => r.internal && r.stereotype == some "mediation")).foldl
    (fun acc _ => acc ++ relator.body.filter (fun m => m.stereotype == some "mediation")) []

/-- Body of the `_validate_relator_pattern` loop for one relator. -/
def relatorVerdictFor (relations : List Relation) (relator : ModelClass) : Verdict :=
  let relator_name := relator.name
  let relator_mediations := relatorMediations relations relator
  if 2 ≤ relator_mediations.length then
    Verdict.complete
      { type := "Relator Pattern", line := relator.line,
        relator := relator_name, mediations := relator_mediations.length }
  else
    Verdict.incomplete
      { type := "Relator Pattern", line := relator.line,
        relator := relator_name, mediations := relator_mediations.length,
        error := "Relator deve ter pelo menos 2 mediações (tem " ++
          toString relator_mediations.length ++ ")",
        suggestion := "Adicione relações @mediation dentro do relator " ++ relator_name }

/-- The `has_characterization` flag of `_validate_mode_pattern`. -/
def hasCharacterizationB (mode : ModelClass) : Bool :=
  mode.body.any (fun m => m.stereotype == some "characterization")

/-- The `has_external_dependence` flag of `_validate_mode_pattern`. -/
def hasExternalDependenceB (mode : ModelClass) : Bool :=
  mode.body.any (fun m => m.stereotype == some "externalDependence")

/-- Body of the `_validate_mode_pattern` loop for one mode. -/
def modeVerdictFor (mode : ModelClass) : Verdict :=
  let mode_name := mode.name
  if hasCharacterizationB mode && hasExternalDependenceB mode then
    Verdict.complete
      { type := "Mode Pattern", line := mode.line, mode := mode_name }
  else
    let missing :=
      (if !hasCharacterizationB mode then ["@characterization"] else []) ++
      (if !hasExternalDependenceB mode then ["@externalDependence"] else [])
    Verdict.incomplete
      { type := "Mode Pattern", line := mode.line, mode := mode_name,
        error := "Faltam relações: " ++ String.intercalate ", " missing,
        suggestion := "Adicione " ++ String.intercalate " e " missing ++
          " dentro do mode " ++ mode_name }

/-- Body of the `_validate_rolemixin_pattern` loop for one roleMixin. -/
def rolemixinVerdictFor (classes : List ModelClass) (gensets : List Genset)
    (rolemixin : ModelClass) : Verdict :=
  let rolemixin_name := rolemixin.name
  let roles := specializersOf classes "role" rolemixin_name
  if roles.length < 2 then
    Verdict.incomplete
      { type := "RoleMixin Pattern", line := rolemixin.line,
        rolemixin := rolemixin_name,
        error := "Precisa de pelo menos 2 roles especializando " ++ rolemixin_name,
        suggestion := "Adicione roles que especializam " ++ rolemixin_name }
  else
    match findGensetForClasses gensets rolemixin_name (roles.map ModelClass.name)
        ["disjoint", "complete"] [] with
    | some genset_found =>
        Verdict.complete
          { type := "RoleMixin Pattern", line := rolemixin.line,
            rolemixin := rolemixin_name, roles := roles.map ModelClass.name,
            genset := genset_found.name }
    | none =>
        Verdict.incomplete
          { type := "RoleMixin Pattern", line := rolemixin.line,
            rolemixin := rolemixin_name, roles := roles.map ModelClass.name,
            error := "Falta genset disjoint complete",
            suggestion := "Adicione: disjoint complete genset " ++ rolemixin_name ++
              "_Genset \x7b general " ++ rolemixin_name ++ " specifics " ++
              String.intercalate ", " (roles.map ModelClass.name) ++ " \x7d" }

/-- Project the payload of a verdict destined for `complete_patterns`. -/
def completeData : Verdict → Option PatternData
  | Verdict.complete p => some p
  | Verdict.incomplete _ => none

/-- Project the payload of a verdict destined for `incomplete_patterns`. -/
def incompleteData : Verdict → Option PatternData
  | Verdict.complete _ => none
  | Verdict.incomplete p => some p

/-- Append a checker's verdicts, in iteration order, to the two accumulator
fields (each loop iteration of the source appends to exactly one of the
two lists). -/
def appendVerdicts (v : Validator) (verdicts : List Verdict) : Validator :=
  { v with
    complete_patterns := v.complete_patterns ++ verdicts.filterMap completeData,
    incomplete_patterns := v.incomplete_patterns ++ verdicts.filterMap incompleteData }

/-- `_validate_subkind_pattern`. -/
def validateSubkindPattern (v : Validator) : Validator :=
  appendVerdicts v
    ((v.classes.filter (fun c => c.stereotype == "kind")).filterMap
      (subkindVerdictFor v.classes v.gensets))

/-- `_validate_role_pattern`. -/
def validateRolePattern (v : Validator) : Validator :=
  appendVerdicts v
    ((v.classes.filter (fun c => c.stereotype == "kind")).filterMap
      (roleVerdictFor v.classes v.gensets))

/-- `_validate_phase_pattern`. -/
def validatePhasePattern (v : Validator) : Validator :=
  appendVerdicts v
    ((v.classes.filter (fun c => c.stereotype == "kind")).filterMap
      (phaseVerdictFor v.classes v.gensets))

/-- `_validate_relator_pattern`. -/
def validateRelatorPattern (v : Validator) : Validator :=
  appendVerdicts v
    ((v.classes.filter (fun c => c.stereotype == "relator")).map
      (relatorVerdictFor v.relations))

/-- `_validate_mode_pattern`. -/
def validateModePattern (v : Validator) : Validator :=
  appendVerdicts v
    ((v.classes.filter (fun c => c.stereotype == "mode")).map modeVerdictFor)

/-- `_validate_rolemixin_pattern`. -/
def validateRolemixinPattern (v : Validator) : Validator :=
  appendVerdicts v
    ((v.classes.filter (fun c => c.stereotype == "roleMixin")).map
      (rolemixinVerdictFor v.classes v.gensets))

/-- Substring test, mirroring Python's `in` operator on strings. -/
def strContainsSub (s pat : String) : Bool :=
  (s.splitOn pat).length != 1

/-- Python's `repr` of a list of strings, as interpolated by an f-string. -/
def pyStrList (names : List String) : String :=
  "[" ++ String.intercalate ", " (names.map (fun n => "\x27" ++ n ++ "\x27")) ++ "]"

/-- A formatted entry of the `complete` output list. -/
structure FormattedComplete where
  pattern : String
  details : String
  line : Nat
deriving DecidableEq, Repr

/-- A formatted entry of the `incomplete` output list. -/
structure FormattedIncomplete where
  pattern : String
  error : String
  suggestion : String
  line : Nat
deriving DecidableEq, Repr

/-- The dictionary returned by `validate_all`. -/
structure Output where
  complete : List FormattedComplete
  incomplete : List FormattedIncomplete
deriving DecidableEq, Repr

/-- `_format_complete_pattern`: build the `details` string by substring
dispatch on the pattern type (the final branch mirrors `str(pattern_data)`
and is unreachable for the six engine-produced types). -/
def formatCompletePattern (pattern_data : PatternData) : FormattedComplete :=
  let pattern_type := pattern_data.type
  let details :=
    if strContainsSub pattern_type "Subkind" then
      "Kind \x27" ++ pattern_data.kind ++ "\x27 com subkinds " ++
        pyStrList pattern_data.subkinds ++ " e genset \x27" ++ pattern_data.genset ++ "\x27"
    else if strContainsSub pattern_type "Role" && !strContainsSub pattern_type "RoleMixin" then
      "Kind \x27" ++ pattern_data.kind ++ "\x27 com roles " ++
        pyStrList pattern_data.roles ++ " e genset \x27" ++ pattern_data.genset ++ "\x27"
    else if strContainsSub pattern_type "Phase" then
      "Kind \x27" ++ pattern_data.kind ++ "\x27 com phases " ++
        pyStrList pattern_data.phases ++ " e genset \x27" ++ pattern_data.genset ++ "\x27"
    else if strContainsSub pattern_type "Relator" then
      "Relator \x27" ++ pattern_data.relator ++ "\x27 com " ++
        toString pattern_data.mediations ++ " mediações"
    else if strContainsSub pattern_type "Mode" then
      "Mode \x27" ++ pattern_data.mode ++ "\x27 com @characterization e @externalDependence"
    else if strContainsSub pattern_type "RoleMixin" then
      "RoleMixin \x27" ++ pattern_data.rolemixin ++ "\x27 com roles " ++
        pyStrList pattern_data.roles ++ " e genset \x27" ++ pattern_data.genset ++ "\x27"
    else
      reprStr pattern_data
  { pattern := pattern_type, details := details, line := pattern_data.line }

/-- `_format_incomplete_pattern`. -/
def formatIncompletePattern (pattern_data : PatternData) : FormattedIncomplete :=
  { pattern := pattern_data.type, error := pattern_data.error,
    suggestion := pattern_data.suggestion, line := pattern_data.line }

/-- `validate_all`: reset both accumulators, run the six checkers in the
fixed order, and return the updated state together with the formatted
result dictionary. -/
def validateAll (v : Validator) : Validator × Output :=
  let v0 : Validator := { v with complete_patterns := [], incomplete_patterns := [] }
  let v6 := validateRolemixinPattern (validateModePattern (validateRelatorPattern
    (validatePhasePattern (validateRolePattern (validateSubkindPattern v0)))))
  (v6, { complete := v6.complete_patterns.map formatCompletePattern,
         incomplete := v6.incomplete_patterns.map formatIncompletePattern })

/-- One step of `_count_by_type`: `counts[ptype] = counts.get(ptype, 0) + 1`
on an insertion-ordered association list. -/
def bumpCount (counts : List (String × Nat)) (t : String) : List (String × Nat) :=
  match counts with
  | [] => [(t, 1)]
  | (k, n) :: rest => if k == t then (k, n + 1) :: rest else (k, n) :: bumpCount rest t

/-- `_count_by_type`. -/
def countByType (patterns : List PatternData) : List (String × Nat) :=
  patterns.foldl (fun counts p => bumpCount counts p.type) []

/-- The dictionary returned by `get_summary`. -/
structure Summary where
  total_complete : Nat
  total_incomplete : Nat
  complete_by_type : List (String × Nat)
  incomplete_by_type : List (String × Nat)
deriving DecidableEq, Repr

/-- `get_summary`. -/
def getSummary (v : Validator) : Summary :=
  { total_complete := v.complete_patterns.length,
    total_incomplete := v.incomplete_patterns.length,
    complete_by_type := countByType v.complete_patterns,
    incomplete_by_type := countByType v.incomplete_patterns }

/-- Look a type up in a count table, defaulting to 0. -/
def lookupCount (counts : List (String × Nat)) (t : String) : Nat :=
  match counts.find? (fun c => c.fst == t) with
  | some c => c.snd
  | none => 0

/-- Concrete model element: a kind named `K`. -/
def kindK : ModelClass :=
  { name := "K", stereotype := "kind", parents := [], body := [], line := 1 }

/-- Concrete model element: a role `A` specializing `K`. -/
def roleA : ModelClass :=
  { name := "A", stereotype := "role", parents := ["K"], body := [], line := 2 }

/-- Concrete model element: a role `B` specializing `K`. -/
def roleB : ModelClass :=
  { name := "B", stereotype := "role", parents := ["K"], body := [], line := 3 }

/-- Concrete model element: a subkind `SA` specializing `K`. -/
def subA : ModelClass :=
  { name := "SA", stereotype := "subkind", parents := ["K"], body := [], line := 4 }

/-- Concrete model element: a subkind `SB` specializing `K`. -/
def subB : ModelClass :=
  { name := "SB", stereotype := "subkind", parents := ["K"], body := [], line := 5 }

/-- Concrete model element: a roleMixin named `M`. -/
def rmxM : ModelClass :=
  { name := "M", stereotype := "roleMixin", parents := [], body := [], line := 6 }

/-- Concrete model element: a role `C` specializing the roleMixin `M`. -/
def roleC : ModelClass :=
  { name := "C", stereotype := "role", parents := ["M"], body := [], line := 7 }

/-- Concrete body member carrying stereotype `characterization`. -/
def charMember : Member := { stereotype := some "characterization" }

/-- Concrete body member carrying stereotype `mediation`. -/
def medMember : Member := { stereotype := some "mediation" }

/-- Concrete model element: a mode `X` whose body holds only a
characterization member. -/
def modeX : ModelClass :=
  { name := "X", stereotype := "mode", parents := [], body := [charMember], line := 8 }

/-- Concrete model element: a relator `R` whose body holds two mediation
members. -/
def relatorR : ModelClass :=
  { name := "R", stereotype := "relator", parents := [], body := [medMember, medMember],
    line := 9 }

/-- Concrete model element: a relator `S` whose body holds one mediation
member. -/
def relatorS : ModelClass :=
  { name := "S", stereotype := "relator", parents := [], body := [medMember], line := 10 }

/-- Concrete genset grouping `A`, `B` under `K` with both modifiers. -/
def gensetCD : Genset :=
  { name := "G1", general := some "K", specifics := ["A", "B"],
    modifiers := ["complete", "disjoint"] }

theorem foldl_append_const_length {α β : Type} (xs : List α) (L : List β) (acc : List β) :
    (xs.foldl (fun a _ => a ++ L) acc).length = acc.length + xs.length * L.length := by
  induction xs generalizing acc with
  | nil => simp
  | cons x xs ih =>
    simp only [List.foldl_cons, ih, List.length_append, List.length_cons]
    ring

/-- C10: the mediation count reported for a relator is the number of
top-level relations with `internal` set and stereotype `mediation`
multiplied by the number of `body` members of the relator with stereotype
`mediation`; in particular, when no such top-level relation exists every
relator gets an Incomplete verdict reporting count 0 regardless of its
body. -/
theorem relator_count_is_product (relations : List Relation) (relator : ModelClass) :
    (relatorMediations relations relator).length =
      (relations.filter (fun r => r.internal && r.stereotype == some "mediation")).length *
      (relator.body.filter (fun m => m.stereotype == some "mediation")).length ∧
    (relations.filter (fun r => r.internal && r.stereotype == some "mediation") = [] →
      relatorVerdictFor relations relator = Verdict.incomplete
        { type := "Relator Pattern", line := relator.line, relator := relator.name,
          mediations := 0,
          error := "Relator deve ter pelo menos 2 mediações (tem 0)",
          suggestion := "Adicione relações @mediation dentro do relator " ++ relator.name }) := by
  constructor
  · rw [relatorMediations, foldl_append_const_length]
    simp
  · intro h
    have hm : relatorMediations relations relator = [] := by
      rw [relatorMediations, h]
      rfl
    rw [relatorVerdictFor, hm]
    rfl

/-- Witness for the relator count theorem at a concrete input: with no
top-level internal mediation relation, relator `S` (one body mediation
member) is reported Incomplete with count 0. -/
theorem relator_count_is_product_witness :
    relatorVerdictFor [] relatorS = Verdict.incomplete
      { type := "Relator Pattern", line := 10, relator := "S", mediations := 0,
        error := "Relator deve ter pelo menos 2 mediações (tem 0)",
        suggestion := "Adicione relações @mediation dentro do relator S" } := by
  have h := (relator_count_is_product [] relatorS).2 (by decide)
  simpa [relatorS] using h

/-- C1: evaluation of the Relator checker at the failing input.  Relator
`R` carries two `body` members with stereotype `mediation`, yet with an
empty top-level `relations` container the checker reports count 0 and an
Incomplete verdict, where the claim (and the checker's own comments)
demand count 2 and a Complete verdict. -/
theorem relator_body_count_ignored_without_top_relations :
    (relatorR.body.filter (fun m => m.stereotype == some "mediation")).length = 2 ∧
    relatorVerdictFor [] relatorR = Verdict.incomplete
      { type := "Relator Pattern", line := 9, relator := "R", mediations := 0,
        error := "Relator deve ter pelo menos 2 mediações (tem 0)",
        suggestion := "Adicione relações @mediation dentro do relator R" } := by
  constructor
  · decide
  · decide

/-- C6: for a class of stereotype `kind`, when fewer than 2 classes of the
matching specializer stereotype list it among their parents, the Subkind,
Role and Phase checkers emit no verdict at all for that kind. -/
theorem min_specializers_no_verdict (classes : List ModelClass) (gensets : List Genset)
    (kind : ModelClass) (_hst : kind.stereotype = "kind") :
    ((specializersOf classes "subkind" kind.name).length < 2 →
      subkindVerdictFor classes gensets kind = none) ∧
    ((specializersOf classes "role" kind.name).length < 2 →
      roleVerdictFor classes gensets kind = none) ∧
    ((specializersOf classes "phase" kind.name).length < 2 →
      phaseVerdictFor classes gensets kind = none) := by
  refine ⟨fun h => ?_, fun h => ?_, fun h => ?_⟩
  · rw [subkindVerdictFor]
    simp [h]
  · rw [roleVerdictFor]
    simp [h]
  · rw [phaseVerdictFor]
    simp [h]

/-- Witness for the no-verdict theorem at a concrete input: a lone kind
with no specializers at all gets no Subkind, Role or Phase verdict. -/
theorem min_specializers_no_verdict_witness :
    subkindVerdictFor [kindK] [] kindK = none ∧
    roleVerdictFor [kindK] [] kindK = none ∧
    phaseVerdictFor [kindK] [] kindK = none :=
  ⟨(min_specializers_no_verdict [kindK] [] kindK rfl).1 (by decide),
   (min_specializers_no_verdict [kindK] [] kindK rfl).2.1 (by decide),
   (min_specializers_no_verdict [kindK] [] kindK rfl).2.2 (by decide)⟩

/-- C3: a roleMixin with fewer than 2 specializing roles immediately gets
an Incomplete verdict whose error states the minimum-2 requirement and
whose suggestion is to add specializing roles; the result is the same for
every genset list (no genset lookup happens in this branch), and in
particular no genset declaration template of the disjoint-complete kind is
produced. -/
theorem rolemixin_too_few_roles_incomplete (classes : List ModelClass)
    (gensets gensets' : List Genset) (rolemixin : ModelClass)
    (_hst : rolemixin.stereotype = "roleMixin")
    (hcount : (specializersOf classes "role" rolemixin.name).length < 2) :
    rolemixinVerdictFor classes gensets rolemixin = Verdict.incomplete
      { type := "RoleMixin Pattern", line := rolemixin.line, rolemixin := rolemixin.name,
        error := "Precisa de pelo menos 2 roles especializando " ++ rolemixin.name,
        suggestion := "Adicione roles que especializam " ++ rolemixin.name } ∧
    rolemixinVerdictFor classes gensets rolemixin =
      rolemixinVerdictFor classes gensets' rolemixin := by
  constructor
  · rw [rolemixinVerdictFor]
    simp [hcount]
  · rw [rolemixinVerdictFor, rolemixinVerdictFor]
    simp [hcount]

/-- Witness for the roleMixin short-circuit at a concrete input: roleMixin
`M` with a single specializing role is Incomplete with the add-roles
suggestion, whether or not a genset is declared. -/
theorem rolemixin_too_few_roles_incomplete_witness :
    rolemixinVerdictFor [rmxM, roleC] [] rmxM = Verdict.incomplete
      { type := "RoleMixin Pattern", line := 6, rolemixin := "M",
        error := "Precisa de pelo menos 2 roles especializando M",
        suggestion := "Adicione roles que especializam M" } ∧
    rolemixinVerdictFor [rmxM, roleC] [] rmxM =
      rolemixinVerdictFor [rmxM, roleC] [gensetCD] rmxM := by
  constructor
  · have h := (rolemixin_too_few_roles_incomplete [rmxM, roleC] [] [gensetCD] rmxM rfl
      (by decide)).1
    simpa [rmxM] using h
  · exact (rolemixin_too_few_roles_incomplete [rmxM, roleC] [] [gensetCD] rmxM rfl
      (by decide)).2

/-- C4: a genset whose modifiers contain both `complete` and `disjoint`
never qualifies for the Role Pattern query (disjoint is forbidden); if
every genset matching the kind, its collected roles and `complete` also
carries `disjoint`, the matcher returns `None` and the Role Pattern
verdict for that kind is Incomplete. -/
theorem role_genset_disjoint_forbidden (classes : List ModelClass) (gensets : List Genset)
    (kind : ModelClass) (_hst : kind.stereotype = "kind")
    (hcount : 2 ≤ (specializersOf classes "role" kind.name).length)
    (honly : ∀ g ∈ gensets, g.general = some kind.name →
      (∀ s ∈ (specializersOf classes "role" kind.name).map ModelClass.name, s ∈ g.specifics) →
      "complete" ∈ g.modifiers → "disjoint" ∈ g.modifiers) :
    (∀ g : Genset, "complete" ∈ g.modifiers → "disjoint" ∈ g.modifiers →
      gensetQualifiesB g kind.name
        ((specializersOf classes "role" kind.name).map ModelClass.name)
        ["complete"] ["disjoint"] = false) ∧
    findGensetForClasses gensets kind.name
      ((specializersOf classes "role" kind.name).map ModelClass.name)
      ["complete"] ["disjoint"] = none ∧
    roleVerdictFor classes gensets kind = some (Verdict.incomplete
      { type := "Role Pattern", line := kind.line, kind := kind.name,
        roles := (specializersOf classes "role" kind.name).map ModelClass.name,
        error := "Falta genset complete (sem disjoint)",
        suggestion := "Adicione: complete genset " ++ kind.name ++
          "_Role_Genset \x7b general " ++ kind.name ++ " specifics " ++
          String.intercalate ", "
            ((specializersOf classes "role" kind.name).map ModelClass.name) ++ " \x7d" }) := by
  have hfalse : ∀ g : Genset, "disjoint" ∈ g.modifiers →
      gensetQualifiesB g kind.name
        ((specializersOf classes "role" kind.name).map ModelClass.name)
        ["complete"] ["disjoint"] = false := by
    intro g hd
    simp only [gensetQualifiesB, List.any_cons, List.any_nil, Bool.or_false, List.contains,
      List.elem_eq_mem, hd, decide_True, Bool.not_true, Bool.and_false]
  have hnone : findGensetForClasses gensets kind.name
      ((specializersOf classes "role" kind.name).map ModelClass.name)
      ["complete"] ["disjoint"] = none := by
    rw [findGensetForClasses, List.find?_eq_none]
    intro g hg hq
    have hQ := (gensetQualifiesB_iff g kind.name
      ((specializersOf classes "role" kind.name).map ModelClass.name)
      ["complete"] ["disjoint"]).mp hq
    obtain ⟨hgen, hspec, hreq, hforb⟩ := hQ
    have hc : "complete" ∈ g.modifiers := hreq "complete" (by simp)
    have hd : "disjoint" ∈ g.modifiers := honly g hg hgen hspec hc
    exact hforb "disjoint" (by simp) hd
  refine ⟨fun g _ hd => hfalse g hd, hnone, ?_⟩
  rw [roleVerdictFor]
  simp only [hnone]
  rw [if_neg (Nat.not_lt.mpr hcount)]

/-- Witness for the forbidden-disjoint theorem at a concrete input: kind
`K` with roles `A`, `B` and a single genset carrying both `complete` and
`disjoint` yields no match and an Incomplete Role Pattern verdict. -/
theorem role_genset_disjoint_forbidden_witness :
    findGensetForClasses [gensetCD] "K" ["A", "B"] ["complete"] ["disjoint"] = none ∧
    roleVerdictFor [kindK, roleA, roleB] [gensetCD] kindK = some (Verdict.incomplete
      { type := "Role Pattern", line := 1, kind := "K", roles := ["A", "B"],
        error := "Falta genset complete (sem disjoint)",
        suggestion := "Adicione: complete genset K_Role_Genset \x7b general K specifics A, B \x7d" }) := by
  have h := role_genset_disjoint_forbidden [kindK, roleA, roleB] [gensetCD] kindK rfl
    (by decide) (by decide)
  exact ⟨h.2.1, h.2.2⟩

/-- C7: a mode missing `characterization` or `externalDependence` among
its body members is Incomplete with an error listing exactly the missing
relation kinds and a suggestion joining them with the conjunction
(rendered `e` by this Portuguese-language tool); a mode with only a
characterization member names solely `@externalDependence`. -/
theorem mode_incomplete_lists_missing (mode : ModelClass) (_hst : mode.stereotype = "mode") :
    (hasCharacterizationB mode = false → hasExternalDependenceB mode = true →
      modeVerdictFor mode = Verdict.incomplete
        { type := "Mode Pattern", line := mode.line, mode := mode.name,
          error := "Faltam relações: @characterization",
          suggestion := "Adicione @characterization dentro do mode " ++ mode.name }) ∧
    (hasCharacterizationB mode = true → hasExternalDependenceB mode = false →
      modeVerdictFor mode = Verdict.incomplete
        { type := "Mode Pattern", line := mode.line, mode := mode.name,
          error := "Faltam relações: @externalDependence",
          suggestion := "Adicione @externalDependence dentro do mode " ++ mode.name }) ∧
    (hasCharacterizationB mode = false → hasExternalDependenceB mode = false →
      modeVerdictFor mode = Verdict.incomplete
        { type := "Mode Pattern", line := mode.line, mode := mode.name,
          error := "Faltam relações: @characterization, @externalDependence",
          suggestion := "Adicione @characterization e @externalDependence dentro do mode " ++
            mode.name }) := by
  refine ⟨fun h1 h2 => ?_, fun h1 h2 => ?_, fun h1 h2 => ?_⟩
  · rw [modeVerdictFor, h1, h2]
    rfl
  · rw [modeVerdictFor, h1, h2]
    rfl
  · rw [modeVerdictFor, h1, h2]
    rfl

/-- Witness for the mode theorem at a concrete input: mode `X`, whose body
holds only a characterization member, is Incomplete naming solely
`@externalDependence`. -/
theorem mode_incomplete_lists_missing_witness :
    modeVerdictFor modeX = Verdict.incomplete
      { type := "Mode Pattern", line := 8, mode := "X",
        error := "Faltam relações: @externalDependence",
        suggestion := "Adicione @externalDependence dentro do mode X" } :=
  (mode_incomplete_lists_missing modeX rfl).2.1 (by decide) (by decide)

/-- The literal declaration template that the specification asserts for
every Subkind/Role/Phase Incomplete suggestion, following the spec text
word for word: `<required-modifiers> genset <Kind>_Genset \x7b general
<Kind> specifics <name1>, <name2>, ... \x7d`.  Kept separate from the
embedding of the source so the two can be compared. -/
def specSuggestionTemplate (requiredModifiers kindName : String) (names : List String) : String :=
  requiredModifiers ++ " genset " ++ kindName ++ "_Genset \x7b general " ++ kindName ++
    " specifics " ++ String.intercalate ", " names ++ " \x7d"

/-- The Role Pattern Incomplete verdict actually produced for kind `K`
with roles `A`, `B` and no genset. -/
def rolePatternKIncomplete : PatternData :=
  { type := "Role Pattern", line := 1, kind := "K", roles := ["A", "B"],
    error := "Falta genset complete (sem disjoint)",
    suggestion := "Adicione: complete genset K_Role_Genset \x7b general K specifics A, B \x7d" }

/-- C5 counterexample: for kind `K` with roles `A`, `B` and no genset, the
Role checker's Incomplete suggestion is not the spec's literal template:
the code prefixes `Adicione: ` and names the genset `K_Role_Genset`
rather than `K_Genset`. -/
theorem role_suggestion_differs_from_template :
    roleVerdictFor [kindK, roleA, roleB] [] kindK =
      some (Verdict.incomplete rolePatternKIncomplete) ∧
    rolePatternKIncomplete.suggestion ≠ specSuggestionTemplate "complete" "K" ["A", "B"] := by
  constructor
  · decide
  · decide

/-- C5 amended: every Incomplete suggestion of the Subkind, Role and Phase
checkers is `Adicione: ` followed by a declaration template whose genset
identifier is `<Kind>_Genset`, `<Kind>_Role_Genset`, `<Kind>_Phase_Genset`
respectively, whose modifier prefix is `disjoint complete`, `complete`,
`disjoint complete` respectively (the Phase suggestion advertises
`disjoint complete` although only `disjoint` is required), and whose
specifics are the collected specializer names in collection order. -/
theorem incomplete_suggestion_literals (classes : List ModelClass) (gensets : List Genset)
    (kind : ModelClass) (p : PatternData) :
    (subkindVerdictFor classes gensets kind = some (Verdict.incomplete p) →
      p.suggestion = "Adicione: disjoint complete genset " ++ kind.name ++
        "_Genset \x7b general " ++ kind.name ++ " specifics " ++
        String.intercalate ", "
          ((specializersOf classes "subkind" kind.name).map ModelClass.name) ++ " \x7d") ∧
    (roleVerdictFor classes gensets kind = some (Verdict.incomplete p) →
      p.suggestion = "Adicione: complete genset " ++ kind.name ++
        "_Role_Genset \x7b general " ++ kind.name ++ " specifics " ++
        String.intercalate ", "
          ((specializersOf classes "role" kind.name).map ModelClass.name) ++ " \x7d") ∧
    (phaseVerdictFor classes gensets kind = some (Verdict.incomplete p) →
      p.suggestion = "Adicione: disjoint complete genset " ++ kind.name ++
        "_Phase_Genset \x7b general " ++ kind.name ++ " specifics " ++
        String.intercalate ", "
          ((specializersOf classes "phase" kind.name).map ModelClass.name) ++ " \x7d") := by
  refine ⟨fun h => ?_, fun h => ?_, fun h => ?_⟩
  · simp only [subkindVerdictFor] at h
    split at h
    · simp at h
    · split at h
      · simp at h
      · simp only [Option.some.injEq, Verdict.incomplete.injEq] at h
        subst h
        rfl
  · simp only [roleVerdictFor] at h
    split at h
    · simp at h
    · split at h
      · simp at h
      · simp only [Option.some.injEq, Verdict.incomplete.injEq] at h
        subst h
        rfl
  · simp only [phaseVerdictFor] at h
    split at h
    · simp at h
    · split at h
      · simp at h
      · simp only [Option.some.injEq, Verdict.incomplete.injEq] at h
        subst h
        rfl

/-- The Subkind Pattern Incomplete verdict actually produced for kind `K`
with subkinds `SA`, `SB` and no genset. -/
def subkindPatternKIncomplete : PatternData :=
  { type := "Subkind Pattern", line := 1, kind := "K", subkinds := ["SA", "SB"],
    error := "Falta genset disjoint complete",
    suggestion := "Adicione: disjoint complete genset K_Genset \x7b general K specifics SA, SB \x7d" }

/-- Witness for the amended suggestion theorem at a concrete input. -/
theorem incomplete_suggestion_literals_witness :
    subkindPatternKIncomplete.suggestion =
      "Adicione: disjoint complete genset K_Genset \x7b general K specifics SA, SB \x7d" :=
  (incomplete_suggestion_literals [kindK, subA, subB] [] kindK subkindPatternKIncomplete).1
    (by decide)

theorem validateAll_model_only (c : List ModelClass) (g : List Genset) (r : List Relation)
    (a b a' b' : List PatternData) :
    validateAll ⟨c, g, r, a, b⟩ = validateAll ⟨c, g, r, a', b'⟩ := rfl

theorem validateAll_keeps_model (v : Validator) :
    (validateAll v).1.classes = v.classes ∧ (validateAll v).1.gensets = v.gensets ∧
    (validateAll v).1.relations = v.relations :=
  ⟨rfl, rfl, rfl⟩

/-- C8: `validate_all` is idempotent: running it a second time on the
unchanged model discards the first run's accumulators and rebuilds the
very same formatted output and the very same two verdict sequences. -/
theorem validateAll_idempotent (v : Validator) :
    (validateAll (validateAll v).1).2 = (validateAll v).2 ∧
    (validateAll (validateAll v).1).1.complete_patterns =
      (validateAll v).1.complete_patterns ∧
    (validateAll (validateAll v).1).1.incomplete_patterns =
      (validateAll v).1.incomplete_patterns := by
  obtain ⟨h1, h2, h3⟩ := validateAll_keeps_model v
  have key : validateAll (validateAll v).1 = validateAll v := by
    calc validateAll (validateAll v).1
        = validateAll ⟨(validateAll v).1.classes, (validateAll v).1.gensets,
            (validateAll v).1.relations, (validateAll v).1.complete_patterns,
            (validateAll v).1.incomplete_patterns⟩ := rfl
      _ = validateAll ⟨v.classes, v.gensets, v.relations,
            (validateAll v).1.complete_patterns,
            (validateAll v).1.incomplete_patterns⟩ := by rw [h1, h2, h3]
      _ = validateAll ⟨v.classes, v.gensets, v.relations, v.complete_patterns,
            v.incomplete_patterns⟩ := validateAll_model_only _ _ _ _ _ _ _
      _ = validateAll v := rfl
  exact ⟨by rw [key], by rw [key], by rw [key]⟩

theorem lookupCount_cons (k : String) (m : Nat) (l : List (String × Nat)) (u : String) :
    lookupCount ((k, m) :: l) u = if k = u then m else lookupCount l u := by
  rw [lookupCount, List.find?_cons]
  by_cases h : k = u
  · simp [h, lookupCount]
  · simp only [h, if_false]
    have hb : (((k, m) : String × Nat).fst == u) = false := by
      simp [h]
    rw [hb, lookupCount]

theorem lookupCount_bump (counts : List (String × Nat)) (t u : String) :
    lookupCount (bumpCount counts t) u =
      if u = t then lookupCount counts u + 1 else lookupCount counts u := by
  induction counts with
  | nil =>
    by_cases h : u = t
    · subst h
      simp [bumpCount, lookupCount_cons, lookupCount]
    · simp only [bumpCount, lookupCount_cons, h, if_false]
      rw [if_neg (fun ht => h ht.symm), lookupCount]
  | cons c rest ih =>
    obtain ⟨k, n⟩ := c
    by_cases hkt : k = t
    · subst hkt
      rw [bumpCount]
      simp only [beq_self_eq_true, if_true]
      rw [lookupCount_cons, lookupCount_cons]
      by_cases hku : k = u
      · simp [hku]
      · have huk : ¬ u = k := fun h => hku h.symm
        simp [hku, huk]
    · rw [bumpCount]
      have hb : (k == t) = false := by simp [hkt]
      rw [hb]
      simp only [Bool.false_eq_true, if_false]
      rw [lookupCount_cons, lookupCount_cons, ih]
      by_cases hku : k = u
      · have hut : ¬ u = t := fun h => hkt (hku.trans h)
        simp [hku, hut]
      · simp [hku]

theorem sum_bump (counts : List (String × Nat)) (t : String) :
    ((bumpCount counts t).map Prod.snd).sum = (counts.map Prod.snd).sum + 1 := by
  induction counts with
  | nil => simp [bumpCount]
  | cons c rest ih =>
    obtain ⟨k, n⟩ := c
    by_cases h : k = t
    · subst h
      rw [bumpCount]
      simp only [beq_self_eq_true, if_true]
      simp
      omega
    · rw [bumpCount]
      have hb : (k == t) = false := by simp [h]
      rw [hb]
      simp only [Bool.false_eq_true, if_false, List.map_cons, List.sum_cons, ih]
      omega

theorem lookupCount_countFold (ps : List PatternData) (acc : List (String × Nat)) (t : String) :
    lookupCount (ps.foldl (fun counts p => bumpCount counts p.type) acc) t =
      lookupCount acc t + (ps.filter (fun p => p.type == t)).length := by
  induction ps generalizing acc with
  | nil => simp
  | cons p rest ih =>
    rw [List.foldl_cons, ih, lookupCount_bump, List.filter_cons]
    by_cases h : t = p.type
    · have hb : (p.type == t) = true := by simp [h]
      rw [hb]
      simp [h]
      omega
    · have hb : (p.type == t) = false := by
        simp only [beq_eq_false_iff_ne, ne_eq]
        exact fun hh => h hh.symm
      rw [hb]
      simp [h]

theorem sum_countFold (ps : List PatternData) (acc : List (String × Nat)) :
    ((ps.foldl (fun counts p => bumpCount counts p.type) acc).map Prod.snd).sum =
      (acc.map Prod.snd).sum + ps.length := by
  induction ps generalizing acc with
  | nil => simp
  | cons p rest ih =>
    rw [List.foldl_cons, ih, sum_bump, List.length_cons]
    omega

/-- C9: after a `validate_all` run, `get_summary` reports totals equal to
the lengths of the two output sequences, and its per-type tallies count
each pattern type exactly and sum back to the totals, so they partition
each sequence. -/
theorem summary_counts_partition (v : Validator) :
    (getSummary (validateAll v).1).total_complete = (validateAll v).2.complete.length ∧
    (getSummary (validateAll v).1).total_incomplete = (validateAll v).2.incomplete.length ∧
    (∀ t, lookupCount (getSummary (validateAll v).1).complete_by_type t =
      ((validateAll v).1.complete_patterns.filter (fun p => p.type == t)).length) ∧
    (∀ t, lookupCount (getSummary (validateAll v).1).incomplete_by_type t =
      ((validateAll v).1.incomplete_patterns.filter (fun p => p.type == t)).length) ∧
    ((getSummary (validateAll v).1).complete_by_type.map Prod.snd).sum =
      (getSummary (validateAll v).1).total_complete ∧
    ((getSummary (validateAll v).1).incomplete_by_type.map Prod.snd).sum =
      (getSummary (validateAll v).1).total_incomplete := by
  refine ⟨?_, ?_, fun t => ?_, fun t => ?_, ?_, ?_⟩
  · show (validateAll v).1.complete_patterns.length =
      ((validateAll v).1.complete_patterns.map formatCompletePattern).length
    rw [List.length_map]
  · show (validateAll v).1.incomplete_patterns.length =
      ((validateAll v).1.incomplete_patterns.map formatIncompletePattern).length
    rw [List.length_map]
  · show lookupCount (countByType (validateAll v).1.complete_patterns) t = _
    rw [countByType, lookupCount_countFold]
    simp [lookupCount]
  · show lookupCount (countByType (validateAll v).1.incomplete_patterns) t = _
    rw [countByType, lookupCount_countFold]
    simp [lookupCount]
  · show ((countByType (validateAll v).1.complete_patterns).map Prod.snd).sum =
      (validateAll v).1.complete_patterns.length
    rw [countByType, sum_countFold]
    simp
  · show ((countByType (validateAll v).1.incomplete_patterns).map Prod.snd).sum =
      (validateAll v).1.incomplete_patterns.length
    rw [countByType, sum_countFold]
    simp
